import Mathlib

/-!
# Verification of the crop-forecast scoring pipeline

Shallow embedding of the pure computational core of the repository
(`src/models/indices.py`, `src/models/crop_suitability.py`,
`src/models/economics.py`) and proofs about it.

Modelling conventions:
* Python floats are modelled as exact rationals (`ℚ`): every constant in the
  source is a short decimal, exactly representable in `ℚ`.
* Python's built-in `round(x, n)` (round-half-to-even) is modelled by
  `pyRound` / `round0` / `round1` / `round2`.
* `np.clip(x, lo, hi)` is `min (max x lo) hi` (the upper bound wins when
  `hi < lo`, exactly as in NumPy); this is `npClip`.
* Transcendental library calls (`np.exp`, `np.log`) and the SciPy SPI
  fitting pipeline are not shallowly embeddable; the embedding takes them
  as explicit function parameters, and every theorem quantifies over them.
* Python dicts with a fixed key set become structures; possibly-absent keys
  become `Option` fields; Python `None` results become `Option.none`.
* Free-text `details` / cost `breakdown` echo fields that merely reformat
  already-stated numbers are elided from the result records.
-/

/-- Python 3 `round` to an integer: round half to even (banker's rounding). -/
def pyRound (q : ℚ) : ℤ :=
  if q - ⌊q⌋ < 1/2 then ⌊q⌋
  else if 1/2 < q - ⌊q⌋ then ⌊q⌋ + 1
  else if ⌊q⌋ % 2 = 0 then ⌊q⌋ else ⌊q⌋ + 1

/-- Python `round(x, 0)` (as a number, not an integer). -/
def round0 (q : ℚ) : ℚ := (pyRound q : ℚ)

/-- Python `round(x, 1)`. -/
def round1 (q : ℚ) : ℚ := (pyRound (q * 10) : ℚ) / 10

/-- Python `round(x, 2)`. -/
def round2 (q : ℚ) : ℚ := (pyRound (q * 100) : ℚ) / 100








/-- `np.clip(x, lo, hi)`: the upper bound is applied last. -/
def npClip (x lo hi : ℚ) : ℚ := min (max x lo) hi


/-! ## `src/models/indices.py` -/

/-- Result of `calculate_gdd` (dict with `daily_gdd`, `cumulative_gdd`,
`total_gdd`). -/
structure GddResult where
  daily_gdd : List ℚ
  cumulative_gdd : List ℚ
  total_gdd : ℚ

/-- `np.cumsum` starting from a running total `acc`. -/
def cumsumFrom (acc : ℚ) : List ℚ → List ℚ
  | [] => []
  | x :: xs => (acc + x) :: cumsumFrom (acc + x) xs

/-- `np.cumsum`. -/
def cumsum (xs : List ℚ) : List ℚ := cumsumFrom 0 xs




/--
`calculate_gdd(T_avg, T_base, T_upper)`:
daily GDD is `np.clip(T_avg - T_base, 0, T_upper - T_base)`, the cumulative
series is `np.cumsum` of it, and `total_gdd` is the last cumulative value
(`0` for an empty input).
-/
def calculate_gdd (T_avg : List ℚ) (T_base T_upper : ℚ) : GddResult :=
  let gdd_daily := T_avg.map (fun t => npClip (t - T_base) 0 (T_upper - T_base))
  let gdd_cumulative := cumsum gdd_daily
  { daily_gdd := gdd_daily
    cumulative_gdd := gdd_cumulative
    total_gdd := gdd_cumulative.getLast?.getD 0 }


/-- Result of `calculate_gtk` (the `precipitation_sum` / `temperature_sum`
echo fields of the success dict are elided). -/
structure GtkResult where
  gtk : Option ℚ
  interpretation : String

/-- `interpret_gtk` on a numeric GTK value. -/
def interpret_gtk (g : ℚ) : String :=
  if 1.6 < g then "Избыточное увлажнение"
  else if 1.3 ≤ g then "Повышенное увлажнение"
  else if 1 ≤ g then "Оптимальное увлажнение"
  else if 0.7 ≤ g then "Недостаточное увлажнение"
  else if 0.5 ≤ g then "Засушливые условия"
  else "Сильная засуха"

/--
`calculate_gtk(precipitation_sum, temperature_sum_above_10)`:
returns a no-data marker (`gtk = None`) when the active-temperature sum is
`≤ 0`, else `round(precip / (0.1 × sum), 2)` with the interpretation taken
on the unrounded value.
-/
def calculate_gtk (precipitation_sum temperature_sum_above_10 : ℚ) : GtkResult :=
  if temperature_sum_above_10 ≤ 0 then
    { gtk := none
      interpretation := "Недостаточно данных (нет температур >10°C)" }
  else
    let g := precipitation_sum / (0.1 * temperature_sum_above_10)
    { gtk := some (round2 g), interpretation := interpret_gtk g }

/-- The active-temperature sum `Σ(T_avg − 10)` over days with `T_avg > 10`,
as computed in `calculate_all_indices`. -/
def activeTempSum (temps : List ℚ) : ℚ :=
  ((temps.filter (fun t => 10 < t)).map (fun t => t - 10)).sum

/-- Result of `calculate_spi` (dict with `spi_values`, `latest_spi`,
`interpretation`; the `timescale` echo field is elided). -/
structure SpiResult where
  spi_values : Option (List ℚ)
  latest_spi : Option ℚ
  interpretation : String

/-- `pd.Series(x).rolling(window=w).sum().dropna()`: the sums of each window
of `w` consecutive elements. -/
def rollingSum (w : ℕ) (xs : List ℚ) : List ℚ :=
  (List.range (xs.length + 1 - w)).map (fun i => ((xs.drop i).take w).sum)

/-- `interpret_spi` on a numeric SPI value. -/
def interpret_spi (s : ℚ) : String :=
  if 2 ≤ s then "Экстремально влажно"
  else if 1.5 ≤ s then "Очень влажно"
  else if 1 ≤ s then "Умеренно влажно"
  else if -1 ≤ s then "Норма"
  else if -1.5 ≤ s then "Умеренная засуха"
  else if -2 ≤ s then "Сильная засуха"
  else "Экстремальная засуха"

/--
`calculate_spi(precipitation_series, timescale)`.

`fitSpi` models the floating-point SciPy pipeline of the success branch
(gamma fit with `floc=0`, cdf, clip to `[0.001, 0.999]`, normal quantile,
`nan_to_num`); `fitSpi = none` models the `except` branch. The guard logic
(rolling sums, the `≥ 10` non-zero count) is embedded concretely.
-/
def calculate_spi (fitSpi : List ℚ → Option (List ℚ))
    (precipitation_series : List ℚ) (timescale : ℕ) : SpiResult :=
  let rolling :=
    if 1 < timescale then rollingSum timescale precipitation_series
    else precipitation_series
  let non_zero := rolling.filter (fun x => 0 < x)
  if non_zero.length < 10 then
    { spi_values := none, latest_spi := none
      interpretation := "Недостаточно данных для расчета SPI" }
  else
    match fitSpi rolling with
    | some vals =>
      let latest := vals.getLast?.getD 0
      { spi_values := some vals, latest_spi := some latest
        interpretation := interpret_spi latest }
    | none =>
      { spi_values := none, latest_spi := none
        interpretation := "Ошибка расчета" }

/--
The SPI dispatch of `calculate_all_indices`: absent precipitation series →
`None`; series shorter than 12 periods → an insufficient-data dict (which
has no `spi_values` / `latest_spi` keys, modelled as `none`); otherwise
`calculate_spi(series, timescale=3)`.
-/
def spiFromClimate (fitSpi : List ℚ → Option (List ℚ))
    (precipitation : Option (List ℚ)) : Option SpiResult :=
  match precipitation with
  | none => none
  | some s =>
    if 12 ≤ s.length then some (calculate_spi fitSpi s 3)
    else some { spi_values := none, latest_spi := none
                interpretation := "Недостаточно данных (нужен год+)" }

/-- The ratio fed to the logarithm in `estimate_lai_from_ndvi`:
`max((0.69 - clip(ndvi, -0.2, 0.68)) / 0.59, 0.001)`. -/
def laiRatio (ndvi : ℚ) : ℚ :=
  let ndvi_clipped := npClip ndvi (-0.2) 0.68
  max ((0.69 - ndvi_clipped) / 0.59) 0.001

/--
`estimate_lai_from_ndvi(ndvi)` with `np.log` taken as the parameter `ln`:
`np.clip(-ln(laiRatio ndvi) / 0.91, 0, 8)`.
-/
def estimate_lai_from_ndvi (ln : ℚ → ℚ) (ndvi : ℚ) : ℚ :=
  npClip (-(ln (laiRatio ndvi)) / 0.91) 0 8

/-! ## `src/models/crop_suitability.py` -/

/-- One entry of the `CROP_PARAMETERS` matrix (15 parameters plus the
`name_ru` / `category` meta fields). -/
structure CropParams where
  T_opt_min : ℚ
  T_opt_max : ℚ
  T_base : ℚ
  precip_min : ℚ
  precip_opt : ℚ
  radiation_min : ℚ
  soil_moisture_min : ℚ
  gtk_opt_min : ℚ
  gtk_opt_max : ℚ
  soil_type_pref : List String
  frost_tolerance : ℚ
  gdd_requirement : ℚ
  lai_optimal : ℚ
  plant_density : ℚ
  growth_duration : ℚ
  ndvi_threshold : ℚ
  spi_tolerance : ℚ
  name_ru : String
  category : String

def wheatParams : CropParams :=
  { T_opt_min := 15, T_opt_max := 25, T_base := 5
    precip_min := 400, precip_opt := 600, radiation_min := 4000
    soil_moisture_min := 0.6, gtk_opt_min := 1.0, gtk_opt_max := 1.5
    soil_type_pref := ["loam", "silty_loam", "clay_loam", "clay"]
    frost_tolerance := -18, gdd_requirement := 1800
    lai_optimal := 5.5, plant_density := 450, growth_duration := 240
    ndvi_threshold := 0.65, spi_tolerance := -1.0
    name_ru := "Пшеница", category := "Зерновые" }

def cornParams : CropParams :=
  { T_opt_min := 20, T_opt_max := 30, T_base := 10
    precip_min := 500, precip_opt := 700, radiation_min := 5000
    soil_moisture_min := 0.7, gtk_opt_min := 1.2, gtk_opt_max := 1.8
    soil_type_pref := ["loam", "silty_loam", "sandy_loam"]
    frost_tolerance := 0, gdd_requirement := 2700
    lai_optimal := 6.0, plant_density := 7, growth_duration := 150
    ndvi_threshold := 0.75, spi_tolerance := -0.5
    name_ru := "Кукуруза", category := "Зерновые" }

def sunflowerParams : CropParams :=
  { T_opt_min := 20, T_opt_max := 27, T_base := 8
    precip_min := 400, precip_opt := 550, radiation_min := 4500
    soil_moisture_min := 0.5, gtk_opt_min := 0.8, gtk_opt_max := 1.3
    soil_type_pref := ["loam", "sandy_loam", "clay_loam"]
    frost_tolerance := -5, gdd_requirement := 2100
    lai_optimal := 4.5, plant_density := 6, growth_duration := 120
    ndvi_threshold := 0.70, spi_tolerance := -1.2
    name_ru := "Подсолнечник", category := "Масличные" }

def soybeanParams : CropParams :=
  { T_opt_min := 20, T_opt_max := 30, T_base := 10
    precip_min := 500, precip_opt := 650, radiation_min := 4800
    soil_moisture_min := 0.65, gtk_opt_min := 1.1, gtk_opt_max := 1.6
    soil_type_pref := ["loam", "silty_loam", "sandy_loam"]
    frost_tolerance := 0, gdd_requirement := 2500
    lai_optimal := 5.0, plant_density := 50, growth_duration := 130
    ndvi_threshold := 0.72, spi_tolerance := -0.8
    name_ru := "Соя", category := "Зернобобовые" }

def barleyParams : CropParams :=
  { T_opt_min := 15, T_opt_max := 22, T_base := 5
    precip_min := 350, precip_opt := 550, radiation_min := 3800
    soil_moisture_min := 0.55, gtk_opt_min := 0.9, gtk_opt_max := 1.4
    soil_type_pref := ["loam", "sandy_loam", "silty_loam"]
    frost_tolerance := -20, gdd_requirement := 1500
    lai_optimal := 5.0, plant_density := 400, growth_duration := 90
    ndvi_threshold := 0.63, spi_tolerance := -1.3
    name_ru := "Ячмень", category := "Зерновые" }

def rapeseedParams : CropParams :=
  { T_opt_min := 15, T_opt_max := 25, T_base := 5
    precip_min := 450, precip_opt := 650, radiation_min := 4200
    soil_moisture_min := 0.65, gtk_opt_min := 1.1, gtk_opt_max := 1.6
    soil_type_pref := ["loam", "clay_loam", "silty_loam"]
    frost_tolerance := -15, gdd_requirement := 2000
    lai_optimal := 5.5, plant_density := 80, growth_duration := 300
    ndvi_threshold := 0.68, spi_tolerance := -0.9
    name_ru := "Рапс", category := "Масличные" }

def potatoParams : CropParams :=
  { T_opt_min := 15, T_opt_max := 20, T_base := 7
    precip_min := 500, precip_opt := 700, radiation_min := 3500
    soil_moisture_min := 0.7, gtk_opt_min := 1.3, gtk_opt_max := 1.8
    soil_type_pref := ["sandy_loam", "loam"]
    frost_tolerance := -2, gdd_requirement := 1400
    lai_optimal := 4.0, plant_density := 5, growth_duration := 120
    ndvi_threshold := 0.65, spi_tolerance := -0.7
    name_ru := "Картофель", category := "Технические" }

def sugarBeetParams : CropParams :=
  { T_opt_min := 18, T_opt_max := 25, T_base := 10
    precip_min := 500, precip_opt := 650, radiation_min := 4500
    soil_moisture_min := 0.7, gtk_opt_min := 1.2, gtk_opt_max := 1.7
    soil_type_pref := ["loam", "silty_loam", "clay_loam"]
    frost_tolerance := -3, gdd_requirement := 2000
    lai_optimal := 5.0, plant_density := 10, growth_duration := 180
    ndvi_threshold := 0.70, spi_tolerance := -0.6
    name_ru := "Сахарная свекла", category := "Технические" }

/-- `CROP_PARAMETERS`, in the dict's insertion (= iteration) order. -/
def CROP_PARAMETERS : List (String × CropParams) :=
  [("wheat", wheatParams), ("corn", cornParams), ("sunflower", sunflowerParams),
   ("soybean", soybeanParams), ("barley", barleyParams), ("rapeseed", rapeseedParams),
   ("potato", potatoParams), ("sugar_beet", sugarBeetParams)]

/-- Python `CROP_PARAMETERS[crop_name]` guarded by `crop_name in CROP_PARAMETERS`. -/
def lookupCrop (crop_name : String) : Option CropParams :=
  (CROP_PARAMETERS.find? (fun p => p.1 == crop_name)).map (fun p => p.2)

/-- The `region_data` mapping: every key may be absent. -/
structure RegionData where
  temperature_avg : Option ℚ
  precipitation_annual : Option ℚ
  precipitation_sum : Option ℚ
  soil_type : Option String
  gdd : Option ℚ
  soil_moisture : Option ℚ
  radiation_sum : Option ℚ
  temperature_min_winter : Option ℚ

/-- A region mapping with every key absent. -/
def emptyRegion : RegionData :=
  { temperature_avg := none, precipitation_annual := none, precipitation_sum := none
    soil_type := none, gdd := none, soil_moisture := none
    radiation_sum := none, temperature_min_winter := none }

/-- The `scores` dict of `calculate_suitability_score` (raw 0–1 criterion
scores). -/
structure CritScores where
  temperature : ℚ
  precipitation : ℚ
  soil : ℚ
  gdd : ℚ
  moisture : ℚ
  radiation : ℚ
  frost : ℚ

/--
The criterion-score block of `calculate_suitability_score` (lines 214–316),
with `np.exp` as the parameter `exp`. Each branch, including every
missing-data fallback (0.5 / 0.7 / 0.8), mirrors the source.
-/
def suitabilityScores (exp : ℚ → ℚ) (rd : RegionData) (cp : CropParams) : CritScores :=
  { temperature :=
      match rd.temperature_avg with
      | some T =>
        if cp.T_opt_min ≤ T ∧ T ≤ cp.T_opt_max then 1
        else max 0 (1 - min |T - cp.T_opt_min| |T - cp.T_opt_max| / 10)
      | none => 0.5
    precipitation :=
      if rd.precipitation_annual.isSome || rd.precipitation_sum.isSome then
        let P := match rd.precipitation_annual with
          | some v => v
          | none => rd.precipitation_sum.getD 0
        if cp.precip_min ≤ P then
          exp (-(((P - cp.precip_opt) / (0.3 * cp.precip_opt)) ^ 2))
        else P / cp.precip_min * 0.5
      else 0.5
    soil :=
      match rd.soil_type with
      | some st => if cp.soil_type_pref.contains st then 1 else 0.5
      | none => 0.5
    gdd :=
      match rd.gdd with
      | some g => if cp.gdd_requirement ≤ g then 1 else g / cp.gdd_requirement
      | none => 0.5
    moisture :=
      match rd.soil_moisture with
      | some W => min 1 (W / cp.soil_moisture_min)
      | none => 0.7
    radiation :=
      match rd.radiation_sum with
      | some Q => if cp.radiation_min ≤ Q then 1 else Q / cp.radiation_min
      | none => 0.7
    frost :=
      match rd.temperature_min_winter with
      | some T =>
        if cp.frost_tolerance ≤ T then 1
        else max 0 (1 - |cp.frost_tolerance - T| / 10)
      | none => 0.8 }

/-- Result dict of `calculate_suitability_score` (free-text `details`
elided; `scores_breakdown` keeps the source's `round(v * 100, 1)`). -/
structure SuitabilityResult where
  crop : String
  crop_name_ru : String
  suitability_score : ℚ
  interpretation : String
  scores_breakdown : CritScores

/--
`calculate_suitability_score(region_data, crop_name)`: `None` for a crop
not in the catalog; otherwise the weighted sum of the seven criterion
scores (weights 0.20/0.20/0.15/0.15/0.10/0.10/0.10), `× 100`, rounded to
one decimal, with the interpretation chosen from the unrounded percentage.
-/
def calculate_suitability_score (exp : ℚ → ℚ) (rd : RegionData)
    (crop_name : String) : Option SuitabilityResult :=
  match lookupCrop crop_name with
  | none => none
  | some cp =>
    let s := suitabilityScores exp rd cp
    let final_score := s.temperature * 0.20 + s.precipitation * 0.20 + s.soil * 0.15
      + s.gdd * 0.15 + s.moisture * 0.10 + s.radiation * 0.10 + s.frost * 0.10
    let final_score_percent := final_score * 100
    some
      { crop := crop_name
        crop_name_ru := cp.name_ru
        suitability_score := round1 final_score_percent
        interpretation :=
          if 80 ≤ final_score_percent then "Высокая пригодность"
          else if 60 ≤ final_score_percent then "Хорошая пригодность"
          else if 40 ≤ final_score_percent then "Умеренная пригодность"
          else "Низкая пригодность"
        scores_breakdown :=
          { temperature := round1 (s.temperature * 100)
            precipitation := round1 (s.precipitation * 100)
            soil := round1 (s.soil * 100)
            gdd := round1 (s.gdd * 100)
            moisture := round1 (s.moisture * 100)
            radiation := round1 (s.radiation * 100)
            frost := round1 (s.frost * 100) } }

/-- The comparison used by `results.sort(key=suitability_score, reverse=True)`:
a stable descending sort. -/
def rankLe (a b : SuitabilityResult) : Bool :=
  decide (b.suitability_score ≤ a.suitability_score)

/-- `rank_crops(region_data)`: score every catalog crop (dropping `None`
results) and stable-sort by descending suitability score. -/
def rank_crops (exp : ℚ → ℚ) (rd : RegionData) : List SuitabilityResult :=
  (CROP_PARAMETERS.filterMap (fun p => calculate_suitability_score exp rd p.1)).mergeSort
    rankLe

/-- `get_top_n_crops(region_data, n)`. -/
def get_top_n_crops (exp : ℚ → ℚ) (rd : RegionData) (n : ℕ) : List SuitabilityResult :=
  (rank_crops exp rd).take n

/-! ## `src/models/economics.py` -/

/-- One entry of `REGIONAL_COSTS` (₽/ha per category). -/
structure CropCosts where
  seeds : ℚ
  fertilizers : ℚ
  fuel : ℚ
  pesticides : ℚ
  machinery : ℚ
  labor : ℚ
  other : ℚ

def wheatCosts : CropCosts :=
  { seeds := 3500, fertilizers := 8000, fuel := 4500, pesticides := 2000
    machinery := 3000, labor := 2500, other := 1500 }

def cornCosts : CropCosts :=
  { seeds := 6000, fertilizers := 12000, fuel := 5500, pesticides := 3000
    machinery := 4000, labor := 3000, other := 2000 }

def sunflowerCosts : CropCosts :=
  { seeds := 4500, fertilizers := 7000, fuel := 5000, pesticides := 2500
    machinery := 3500, labor := 2500, other := 1500 }

def soybeanCosts : CropCosts :=
  { seeds := 5000, fertilizers := 6000, fuel := 5000, pesticides := 3500
    machinery := 3500, labor := 2500, other := 1500 }

def barleyCosts : CropCosts :=
  { seeds := 3000, fertilizers := 7000, fuel := 4000, pesticides := 1800
    machinery := 2800, labor := 2200, other := 1200 }

def rapeseedCosts : CropCosts :=
  { seeds := 3500, fertilizers := 10000, fuel := 5500, pesticides := 4000
    machinery := 3800, labor := 2800, other := 1800 }

def potatoCosts : CropCosts :=
  { seeds := 25000, fertilizers := 15000, fuel := 8000, pesticides := 5000
    machinery := 6000, labor := 8000, other := 3000 }

def sugarBeetCosts : CropCosts :=
  { seeds := 8000, fertilizers := 12000, fuel := 7000, pesticides := 4500
    machinery := 5000, labor := 6000, other := 2500 }

/-- `REGIONAL_COSTS`, in insertion order. -/
def REGIONAL_COSTS : List (String × CropCosts) :=
  [("wheat", wheatCosts), ("corn", cornCosts), ("sunflower", sunflowerCosts),
   ("soybean", soybeanCosts), ("barley", barleyCosts), ("rapeseed", rapeseedCosts),
   ("potato", potatoCosts), ("sugar_beet", sugarBeetCosts)]

/-- `MARKET_PRICES` (₽/t), in insertion order. -/
def MARKET_PRICES : List (String × ℚ) :=
  [("wheat", 15000), ("corn", 14000), ("sunflower", 30000), ("soybean", 35000),
   ("barley", 13000), ("rapeseed", 32000), ("potato", 20000), ("sugar_beet", 3500)]

def lookupCosts (crop_name : String) : Option CropCosts :=
  (REGIONAL_COSTS.find? (fun p => p.1 == crop_name)).map (fun p => p.2)

def lookupPrice (crop_name : String) : Option ℚ :=
  (MARKET_PRICES.find? (fun p => p.1 == crop_name)).map (fun p => p.2)

/-- `sum(costs.values())` in the dict's insertion order. -/
def totalOfCosts (c : CropCosts) : ℚ :=
  c.seeds + c.fertilizers + c.fuel + c.pesticides + c.machinery + c.labor + c.other

/-- Result dict of `calculate_profitability` (the `costs.breakdown` echo of
the table, `round(v, 0)` of whole-rouble constants, is elided). -/
structure ProfitabilityResult where
  costs_total : ℚ
  revenue : ℚ
  profit : ℚ
  roi_percent : ℚ
  profitability_percent : ℚ
  breakeven_yield_cwt_per_ha : ℚ
  price_per_ton : ℚ
  yield_tons_per_ha : ℚ

/--
`calculate_profitability(crop_name, yield_forecast)`: `None` unless the crop
is in both tables; otherwise revenue/profit/ROI/profitability/break-even as
in the source, with `round(·, 0)` on money, `round(·, 1)` on percentages and
break-even yield, `round(·, 2)` on tons.
-/
def calculate_profitability (crop_name : String) (yield_forecast : ℚ) :
    Option ProfitabilityResult :=
  match lookupCosts crop_name, lookupPrice crop_name with
  | some costs, some price_per_ton =>
    let total_costs := totalOfCosts costs
    let yield_tons := yield_forecast / 10
    let revenue := yield_tons * price_per_ton
    let profit := revenue - total_costs
    let roi := if 0 < total_costs then profit / total_costs * 100 else 0
    let profitability := if 0 < revenue then profit / revenue * 100 else 0
    let breakeven_yield := total_costs / price_per_ton * 10
    some
      { costs_total := round0 total_costs
        revenue := round0 revenue
        profit := round0 profit
        roi_percent := round1 roi
        profitability_percent := round1 profitability
        breakeven_yield_cwt_per_ha := round1 breakeven_yield
        price_per_ton := price_per_ton
        yield_tons_per_ha := round2 yield_tons }
  | _, _ => none

/-- One entry of `CROP_GDD_REQUIREMENTS` in `src/models/indices.py`. -/
structure GddReq where
  base : ℚ
  upper : ℚ
  total : ℚ
  name_ru : String

/-- `CROP_GDD_REQUIREMENTS`, in insertion order. -/
def CROP_GDD_REQUIREMENTS : List (String × GddReq) :=
  [("wheat", ⟨5, 30, 1800, "Пшеница"⟩), ("corn", ⟨10, 30, 2700, "Кукуруза"⟩),
   ("sunflower", ⟨8, 34, 2100, "Подсолнечник"⟩), ("soybean", ⟨10, 30, 2500, "Соя"⟩),
   ("barley", ⟨5, 30, 1500, "Ячмень"⟩), ("rapeseed", ⟨5, 30, 2000, "Рапс"⟩),
   ("potato", ⟨7, 30, 1400, "Картофель"⟩), ("sugar_beet", ⟨10, 30, 2000, "Сахарная свекла"⟩)]

def lookupGddReq (crop_name : String) : Option GddReq :=
  (CROP_GDD_REQUIREMENTS.find? (fun p => p.1 == crop_name)).map (fun p => p.2)

/-- The indices dict as consumed by `assess_climate_risks`: `spi_latest = some v`
models `indices['spi']` present with a non-`None` `latest_spi`; `gtk = some v`
models `indices['gtk']` present with a numeric `gtk` value; `gdd_total = some v`
models `indices['gdd']` present with `total_gdd = v`. -/
structure IndicesSummary where
  spi_latest : Option ℚ
  gtk : Option ℚ
  gdd_total : Option ℚ

/-- Drought-risk block of `assess_climate_risks`. -/
def droughtRisk (spi_latest : Option ℚ) : ℚ :=
  match spi_latest with
  | some spi =>
    if spi < -2 then 90
    else if spi < -1.5 then 60
    else if spi < -1 then 30
    else 10
  | none => 20

/-- Frost-risk block of `assess_climate_risks` (`temperature_min = none`
models both an absent climate dict and an absent key). -/
def frostRisk (temperature_min : Option ℚ) (crop_name : String) : ℚ :=
  match temperature_min with
  | some T_min =>
    match lookupCrop crop_name with
    | some cp =>
      if T_min < cp.frost_tolerance - 5 then 80
      else if T_min < cp.frost_tolerance then 50
      else if T_min < cp.frost_tolerance + 2 then 20
      else 5
    | none => 20
  | none => 15

/-- Excess-moisture block of `assess_climate_risks`. -/
def excessMoistureRisk (gtk : Option ℚ) : ℚ :=
  match gtk with
  | some g => if 2 < g then 70 else if 1.6 < g then 40 else 10
  | none => 15

/-- Heat-deficit block of `assess_climate_risks`. -/
def heatDeficitRisk (gdd_total : Option ℚ) (crop_name : String) : ℚ :=
  match gdd_total with
  | some actual =>
    match lookupGddReq crop_name with
    | some req =>
      let ratio := actual / req.total
      if ratio < 0.75 then 80
      else if ratio < 0.9 then 50
      else if ratio < 1 then 20
      else 5
    | none => 20
  | none => 25

/-- Result dict of `assess_climate_risks`. -/
structure RiskResult where
  total_risk : ℚ
  interpretation : String
  recommendation : String
  drought : ℚ
  frost : ℚ
  excess_moisture : ℚ
  heat_deficit : ℚ

/--
`assess_climate_risks(climate_data, indices, crop_name)`: the four hazard
scores, their weighted total (weights 0.35/0.25/0.20/0.20) rounded to one
decimal, and the interpretation bands taken on the unrounded total. The
`risk_breakdown` values keep the source's `round(v, 1)`.
-/
def assess_climate_risks (temperature_min : Option ℚ) (ind : IndicesSummary)
    (crop_name : String) : RiskResult :=
  let drought := droughtRisk ind.spi_latest
  let frost := frostRisk temperature_min crop_name
  let excess_moisture := excessMoistureRisk ind.gtk
  let heat_deficit := heatDeficitRisk ind.gdd_total crop_name
  let total_risk := drought * 0.35 + frost * 0.25 + excess_moisture * 0.20
    + heat_deficit * 0.20
  { total_risk := round1 total_risk
    interpretation :=
      if total_risk < 20 then "Низкий риск"
      else if total_risk < 40 then "Умеренный риск"
      else if total_risk < 60 then "Повышенный риск"
      else "Высокий риск"
    recommendation :=
      if total_risk < 20 then "Условия благоприятные для выращивания"
      else if total_risk < 40 then "Рекомендуется стандартная агротехника"
      else if total_risk < 60 then "Требуются дополнительные меры защиты"
      else "Рекомендуется рассмотреть альтернативные культуры"
    drought := round1 drought
    frost := round1 frost
    excess_moisture := round1 excess_moisture
    heat_deficit := round1 heat_deficit }

/--
`calculate_final_rating(suitability_score, profitability, risk_assessment)`:
`roi_percent` and `total_risk` are read with dict defaults 0 and 50, the
profit score is `min(100, max(0, 50 + roi))`, and the rating is
`round(0.4×suit + 0.4×profit_score + 0.2×(100 − risk), 1)`.
-/
def calculate_final_rating (suitability_score : ℚ) (roi_percent : Option ℚ)
    (total_risk : Option ℚ) : ℚ :=
  let roi := roi_percent.getD 0
  let profit_score := min 100 (max 0 (50 + roi))
  let risk := total_risk.getD 50
  let risk_score := 100 - risk
  round1 (0.4 * suitability_score + 0.4 * profit_score + 0.2 * risk_score)

/-! ## Concrete instantiations used by witnesses and counterexamples -/

/-- A trivial stand-in for `np.exp`, usable whenever a concrete theorem does
not reach the exponential branch (or does not depend on its value). -/
def expOne : ℚ → ℚ := fun _ => 1

/-- Region features whose weighted wheat percentage is exactly 79.96:
temperature and precipitation absent (score 0.5 each), preferred soil,
`gdd = 1795.2`, ample moisture, radiation and a safe winter minimum. -/
def regionC1 : RegionData :=
  { temperature_avg := none, precipitation_annual := none, precipitation_sum := none
    soil_type := some "loam", gdd := some (8976/5), soil_moisture := some 1
    radiation_sum := some 5000, temperature_min_winter := some 0 }

/-- The weighted criterion percentage of `calculate_suitability_score`
(the seven criterion scores with the claimed weights, times 100), before
rounding. -/
def weightedPercent (exp : ℚ → ℚ) (rd : RegionData) (cp : CropParams) : ℚ :=
  (0.20 * (suitabilityScores exp rd cp).temperature
    + 0.20 * (suitabilityScores exp rd cp).precipitation
    + 0.15 * (suitabilityScores exp rd cp).soil
    + 0.15 * (suitabilityScores exp rd cp).gdd
    + 0.10 * (suitabilityScores exp rd cp).moisture
    + 0.10 * (suitabilityScores exp rd cp).radiation
    + 0.10 * (suitabilityScores exp rd cp).frost) * 100

/-! ## Helper lemmas -/

theorem pyRound_mem (q : ℚ) : pyRound q = ⌊q⌋ ∨ pyRound q = ⌊q⌋ + 1 := by
  unfold pyRound
  split_ifs <;> simp

theorem le_pyRound {n : ℤ} {q : ℚ} (h : (n : ℚ) ≤ q) : n ≤ pyRound q := by
  have hf : n ≤ ⌊q⌋ := Int.le_floor.mpr h
  rcases pyRound_mem q with h' | h' <;> omega

theorem pyRound_le {n : ℤ} {q : ℚ} (h : q ≤ (n : ℚ)) : pyRound q ≤ n := by
  have hf : ⌊q⌋ ≤ n := by
    have h2 : ⌊q⌋ ≤ ⌊(n : ℚ)⌋ := Int.floor_le_floor h
    simpa using h2
  have key : ¬ (q - ⌊q⌋ < 1/2) → ⌊q⌋ + 1 ≤ n := by
    intro h1
    have hq : (⌊q⌋ : ℚ) < q := by
      have := not_lt.mp h1
      linarith
    have hlt : (⌊q⌋ : ℚ) < (n : ℚ) := lt_of_lt_of_le hq h
    have : ⌊q⌋ < n := by exact_mod_cast hlt
    omega
  unfold pyRound
  split_ifs with h1 h2 h3
  · exact hf
  · exact key h1
  · exact hf
  · exact key h1

theorem round1_le {q : ℚ} {n : ℤ} (h : q ≤ (n : ℚ)) : round1 q ≤ (n : ℚ) := by
  unfold round1
  have h10 : q * 10 ≤ ((n * 10 : ℤ) : ℚ) := by push_cast; linarith
  have hp := pyRound_le h10
  rw [div_le_iff₀ (by norm_num : (0:ℚ) < 10)]
  have hc : ((pyRound (q * 10) : ℤ) : ℚ) ≤ ((n * 10 : ℤ) : ℚ) := by exact_mod_cast hp
  push_cast at hc
  linarith

theorem le_round1 {q : ℚ} {n : ℤ} (h : (n : ℚ) ≤ q) : (n : ℚ) ≤ round1 q := by
  unfold round1
  have h10 : ((n * 10 : ℤ) : ℚ) ≤ q * 10 := by push_cast; linarith
  have hp := le_pyRound h10
  rw [le_div_iff₀ (by norm_num : (0:ℚ) < 10)]
  have hc : ((n * 10 : ℤ) : ℚ) ≤ ((pyRound (q * 10) : ℤ) : ℚ) := by exact_mod_cast hp
  push_cast at hc
  linarith

theorem pyRound_intCast (n : ℤ) : pyRound (n : ℚ) = n := by
  unfold pyRound
  norm_num

theorem round1_intCast (n : ℤ) : round1 (n : ℚ) = (n : ℚ) := by
  unfold round1
  have : (n : ℚ) * 10 = ((n * 10 : ℤ) : ℚ) := by push_cast; ring
  rw [this, pyRound_intCast]
  push_cast
  ring

theorem npClip_comm_of_nonneg {x hi : ℚ} (h : 0 ≤ hi) :
    npClip x 0 hi = max 0 (min x hi) := by
  unfold npClip
  rw [min_comm, min_max_distrib_left, min_eq_right h, max_comm, min_comm hi x]

theorem cumsumFrom_length (acc : ℚ) (xs : List ℚ) :
    (cumsumFrom acc xs).length = xs.length := by
  induction xs generalizing acc with
  | nil => rfl
  | cons x xs ih => simp [cumsumFrom, ih]

theorem cumsumFrom_getLast_cons (acc x : ℚ) (xs : List ℚ) :
    (cumsumFrom acc (x :: xs)).getLast? = some (acc + (x :: xs).sum) := by
  induction xs generalizing acc x with
  | nil => simp [cumsumFrom]
  | cons y ys ih =>
    rw [cumsumFrom, cumsumFrom, List.getLast?_cons_cons, ← cumsumFrom, ih]
    simp only [List.sum_cons, Option.some.injEq]
    ring

theorem cumsum_getLast_getD (xs : List ℚ) : (cumsum xs).getLast?.getD 0 = xs.sum := by
  cases xs with
  | nil => simp [cumsum, cumsumFrom]
  | cons x xs => rw [cumsum, cumsumFrom_getLast_cons]; simp

theorem calculate_gdd_total_eq_sum (T_avg : List ℚ) (T_base T_upper : ℚ) :
    (calculate_gdd T_avg T_base T_upper).total_gdd =
      ((calculate_gdd T_avg T_base T_upper).daily_gdd).sum := by
  simp only [calculate_gdd]
  exact cumsum_getLast_getD _

/-! ## Claim theorems -/

/--
C3: for every suitability score in [0,100], every ROI value and every total
risk in [0,100], `calculate_final_rating` returns
`round(0.4×suit + 0.4×min(100, max(0, 50 + roi)) + 0.2×(100 − risk), 1)`,
and the returned rating lies in [0,100].
-/
theorem C3_final_rating (suit roi risk : ℚ)
    (h0 : 0 ≤ suit) (h1 : suit ≤ 100) (h2 : 0 ≤ risk) (h3 : risk ≤ 100) :
    calculate_final_rating suit (some roi) (some risk) =
      round1 (0.4 * suit + 0.4 * min 100 (max 0 (50 + roi)) + 0.2 * (100 - risk)) ∧
    0 ≤ calculate_final_rating suit (some roi) (some risk) ∧
    calculate_final_rating suit (some roi) (some risk) ≤ 100 := by
  have hps0 : 0 ≤ min 100 (max 0 (50 + roi)) := le_min (by norm_num) (le_max_left 0 _)
  have hps1 : min 100 (max 0 (50 + roi)) ≤ 100 := min_le_left _ _
  have harg0 : (0:ℚ) ≤ 0.4 * suit + 0.4 * min 100 (max 0 (50 + roi)) + 0.2 * (100 - risk) := by
    nlinarith
  have harg1 : 0.4 * suit + 0.4 * min 100 (max 0 (50 + roi)) + 0.2 * (100 - risk) ≤ 100 := by
    nlinarith
  refine ⟨rfl, ?_, ?_⟩
  · have := le_round1 (n := 0) (by push_cast; exact harg0)
    simpa [calculate_final_rating] using this
  · have := round1_le (n := 100) (by push_cast; exact harg1)
    simpa [calculate_final_rating] using this

/-- Witness for C3 at `suit = 50`, `roi = 0`, `risk = 50`. -/
theorem C3_final_rating_witness :
    ((0:ℚ) ≤ 50 ∧ (50:ℚ) ≤ 100) ∧
    (calculate_final_rating 50 (some 0) (some 50) =
        round1 (0.4 * 50 + 0.4 * min 100 (max 0 (50 + 0)) + 0.2 * (100 - 50)) ∧
      0 ≤ calculate_final_rating 50 (some 0) (some 50) ∧
      calculate_final_rating 50 (some 0) (some 50) ≤ 100) :=
  ⟨⟨by norm_num, by norm_num⟩,
   C3_final_rating 50 0 50 (by norm_num) (by norm_num) (by norm_num) (by norm_num)⟩

/--
C4 counterexample: with `T_base = 30 > T_upper = 10` (parameters the claim
quantifies over), `np.clip` lets the upper bound win, so the daily value for
`T_avg = 20` is `-20`, not `max(0, min(20−30, 10−30)) = 0`, and the total is
negative.
-/
theorem C4_counterexample :
    (calculate_gdd [20] 30 10).daily_gdd = [-20] ∧
    ((-20 : ℚ) ≠ max 0 (min ((20:ℚ) - 30) ((10:ℚ) - 30))) ∧
    (calculate_gdd [20] 30 10).total_gdd = -20 ∧ ¬ (0 ≤ (-20 : ℚ)) := by
  refine ⟨?_, by norm_num [min_def, max_def], ?_, by norm_num⟩
  · norm_num [calculate_gdd, npClip, min_def, max_def]
  · norm_num [calculate_gdd, cumsum, cumsumFrom, npClip, min_def, max_def]

/--
C4 (amended: requires `T_base ≤ T_upper`, true of the defaults 10 and 30):
each daily value is `max(0, min(T − T_base, T_upper − T_base))`, the
cumulative series has the input's length, the total is its last value and is
non-negative, and 365 days of 20 °C at `T_base = 10` give `total_gdd = 3650`.
-/
theorem C4_gdd (T : List ℚ) (base upper : ℚ) (h : base ≤ upper) :
    (calculate_gdd T base upper).daily_gdd
        = T.map (fun t => max 0 (min (t - base) (upper - base))) ∧
    (calculate_gdd T base upper).cumulative_gdd.length = T.length ∧
    (calculate_gdd T base upper).total_gdd
        = (calculate_gdd T base upper).cumulative_gdd.getLast?.getD 0 ∧
    0 ≤ (calculate_gdd T base upper).total_gdd ∧
    (calculate_gdd (List.replicate 365 20) 10 30).total_gdd = 3650 := by
  have hhi : (0:ℚ) ≤ upper - base := by linarith
  refine ⟨?_, ?_, rfl, ?_, ?_⟩
  · simp only [calculate_gdd]
    exact List.map_congr_left (fun t _ => npClip_comm_of_nonneg hhi)
  · simp only [calculate_gdd, cumsum]
    rw [cumsumFrom_length, List.length_map]
  · rw [calculate_gdd_total_eq_sum]
    apply List.sum_nonneg
    intro x hx
    simp only [calculate_gdd, List.mem_map] at hx
    obtain ⟨t, -, rfl⟩ := hx
    exact le_min (le_max_right _ _) hhi
  · rw [calculate_gdd_total_eq_sum]
    norm_num [calculate_gdd, npClip, min_def, max_def, List.map_replicate,
      List.sum_replicate]

/-- Witness for C4 at `T = [20]`, `T_base = 10`, `T_upper = 30`. -/
theorem C4_gdd_witness :
    ((10:ℚ) ≤ 30) ∧
    ((calculate_gdd [20] 10 30).daily_gdd
        = [(20:ℚ)].map (fun t => max 0 (min (t - 10) (30 - 10))) ∧
      (calculate_gdd [20] 10 30).cumulative_gdd.length = [(20:ℚ)].length ∧
      (calculate_gdd [20] 10 30).total_gdd
          = (calculate_gdd [20] 10 30).cumulative_gdd.getLast?.getD 0 ∧
      0 ≤ (calculate_gdd [20] 10 30).total_gdd ∧
      (calculate_gdd (List.replicate 365 20) 10 30).total_gdd = 3650) :=
  ⟨by norm_num, C4_gdd [20] 10 30 (by norm_num)⟩

/--
C5 counterexample: for precipitation 1 and temperatures `[13]` (active sum
3), the returned GTK is the rounded `3.33`, not the exact
`1 / (0.1 × 3) = 10/3` the claim states.
-/
theorem C5_counterexample :
    (calculate_gtk 1 (activeTempSum [13])).gtk = some (333/100) ∧
    ((333/100 : ℚ) ≠ 1 / (0.1 * activeTempSum [13])) := by
  constructor
  · norm_num [calculate_gtk, activeTempSum, round2, pyRound]
  · norm_num [activeTempSum]

/--
C5 (amended: the returned GTK is rounded to two decimals): `calculate_gtk`
returns the no-data marker (`gtk = None`, explanatory interpretation, no
exception) whenever the active-temperature sum `Σ(T_avg − 10)` over days
with `T_avg > 10` is zero or negative, and otherwise returns
`round(precipitation_sum / (0.1 × active sum), 2)`.
-/
theorem C5_gtk (p : ℚ) (temps : List ℚ) :
    (activeTempSum temps ≤ 0 →
      calculate_gtk p (activeTempSum temps) =
        { gtk := none
          interpretation := "Недостаточно данных (нет температур >10°C)" }) ∧
    (0 < activeTempSum temps →
      (calculate_gtk p (activeTempSum temps)).gtk =
        some (round2 (p / (0.1 * activeTempSum temps)))) := by
  constructor
  · intro h
    rw [calculate_gtk, if_pos h]
  · intro h
    rw [calculate_gtk, if_neg (not_le.mpr h)]

/-- Witness for C5: both branches at concrete inputs (`temps = []` gives an
active sum of 0; `temps = [13]` gives 3). -/
theorem C5_gtk_witness :
    (activeTempSum [] ≤ 0 ∧
      calculate_gtk 1 (activeTempSum []) =
        { gtk := none
          interpretation := "Недостаточно данных (нет температур >10°C)" }) ∧
    (0 < activeTempSum [13] ∧
      (calculate_gtk 1 (activeTempSum [13])).gtk =
        some (round2 (1 / (0.1 * activeTempSum [13])))) :=
  ⟨⟨by norm_num [activeTempSum], (C5_gtk 1 []).1 (by norm_num [activeTempSum])⟩,
   ⟨by norm_num [activeTempSum], (C5_gtk 1 [13]).2 (by norm_num [activeTempSum])⟩⟩

/--
C7 counterexample: at NDVI = 0.69 the vegetation index is first clipped to
0.68, so the ratio inside the logarithm is `0.01/0.59 = 1/59 ≈ 0.0169`; it
does NOT clamp to 0.001 (and the LAI is `−ln(1/59)/0.91 ≈ 4.48`, not 7.59).
-/
theorem C7_counterexample :
    laiRatio (69/100) = 1/59 ∧ ((1/59 : ℚ) ≠ 0.001) := by
  constructor
  · norm_num [laiRatio, npClip, min_def, max_def]
  · norm_num

/--
C7 (amended: at NDVI = 0.69 the ratio is `1/59`, giving
`LAI = clip(−ln(1/59)/0.91, 0, 8) ≈ 4.48`): for every model `ln` of `np.log`
and every NDVI input, the returned LAI lies within [0, 8].
-/
theorem C7_lai (ln : ℚ → ℚ) :
    estimate_lai_from_ndvi ln (69/100) = npClip (-(ln (1/59)) / 0.91) 0 8 ∧
    (∀ x : ℚ, 0 ≤ estimate_lai_from_ndvi ln x ∧ estimate_lai_from_ndvi ln x ≤ 8) := by
  constructor
  · have hr : laiRatio (69/100) = 1/59 := by
      norm_num [laiRatio, npClip, min_def, max_def]
    rw [estimate_lai_from_ndvi, hr]
  · intro x
    unfold estimate_lai_from_ndvi npClip
    exact ⟨le_min (le_max_right _ _) (by norm_num), min_le_right _ _⟩

/--
C2 counterexample: with every input absent, the frost criterion falls back
to 0.8 (breakdown 80.0), not the claimed 0.5 (breakdown 50.0).
-/
theorem C2_counterexample :
    (calculate_suitability_score expOne emptyRegion "wheat").map
        (fun r => r.scores_breakdown.frost) = some 80 ∧
    ((80:ℚ) ≠ 50) ∧
    (suitabilityScores expOne emptyRegion wheatParams).frost = 0.8 ∧
    ((0.8 : ℚ) ≠ 0.5) := by
  refine ⟨?_, by norm_num, ?_, by norm_num⟩
  · norm_num [calculate_suitability_score, suitabilityScores, lookupCrop,
      CROP_PARAMETERS, List.find?, emptyRegion, round1, pyRound]
  · norm_num [suitabilityScores, emptyRegion]

/--
C2 (amended: the frost fallback is 0.8, not 0.5): when a criterion's input
key is absent, the criterion scores fall back to 0.5 for temperature,
precipitation, soil type and GDD, 0.7 for soil moisture and radiation, and
0.8 for frost; and for any catalog crop the scorer always returns a result
(no exception for missing data).
-/
theorem C2_fallbacks (exp : ℚ → ℚ) (rd : RegionData) (cp : CropParams) :
    (rd.temperature_avg = none → (suitabilityScores exp rd cp).temperature = 0.5) ∧
    (rd.precipitation_annual = none → rd.precipitation_sum = none →
      (suitabilityScores exp rd cp).precipitation = 0.5) ∧
    (rd.soil_type = none → (suitabilityScores exp rd cp).soil = 0.5) ∧
    (rd.gdd = none → (suitabilityScores exp rd cp).gdd = 0.5) ∧
    (rd.soil_moisture = none → (suitabilityScores exp rd cp).moisture = 0.7) ∧
    (rd.radiation_sum = none → (suitabilityScores exp rd cp).radiation = 0.7) ∧
    (rd.temperature_min_winter = none → (suitabilityScores exp rd cp).frost = 0.8) ∧
    (∀ name p, lookupCrop name = some p →
      (calculate_suitability_score exp rd name).isSome = true) := by
  refine ⟨?_, ?_, ?_, ?_, ?_, ?_, ?_, ?_⟩
  · intro h; simp [suitabilityScores, h]
  · intro h1 h2; simp [suitabilityScores, h1, h2]
  · intro h; simp [suitabilityScores, h]
  · intro h; simp [suitabilityScores, h]
  · intro h; simp [suitabilityScores, h]
  · intro h; simp [suitabilityScores, h]
  · intro h; simp [suitabilityScores, h]
  · intro name p hp; simp [calculate_suitability_score, hp]

/-- Witness for C2 on the all-absent region and the wheat profile. -/
theorem C2_fallbacks_witness :
    (suitabilityScores expOne emptyRegion wheatParams).temperature = 0.5 ∧
    (suitabilityScores expOne emptyRegion wheatParams).precipitation = 0.5 ∧
    (suitabilityScores expOne emptyRegion wheatParams).soil = 0.5 ∧
    (suitabilityScores expOne emptyRegion wheatParams).gdd = 0.5 ∧
    (suitabilityScores expOne emptyRegion wheatParams).moisture = 0.7 ∧
    (suitabilityScores expOne emptyRegion wheatParams).radiation = 0.7 ∧
    (suitabilityScores expOne emptyRegion wheatParams).frost = 0.8 ∧
    (calculate_suitability_score expOne emptyRegion "wheat").isSome = true :=
  ⟨(C2_fallbacks expOne emptyRegion wheatParams).1 rfl,
   (C2_fallbacks expOne emptyRegion wheatParams).2.1 rfl rfl,
   (C2_fallbacks expOne emptyRegion wheatParams).2.2.1 rfl,
   (C2_fallbacks expOne emptyRegion wheatParams).2.2.2.1 rfl,
   (C2_fallbacks expOne emptyRegion wheatParams).2.2.2.2.1 rfl,
   (C2_fallbacks expOne emptyRegion wheatParams).2.2.2.2.2.1 rfl,
   (C2_fallbacks expOne emptyRegion wheatParams).2.2.2.2.2.2.1 rfl,
   (C2_fallbacks expOne emptyRegion wheatParams).2.2.2.2.2.2.2 "wheat" wheatParams
     (by norm_num [lookupCrop, CROP_PARAMETERS, List.find?])⟩

/--
C1 counterexample: on `regionC1` the weighted wheat percentage is exactly
79.96, which rounds to a returned score of 80.0, yet the interpretation is
the "good" band, not "high" — so the band is not determined by the returned
(rounded) score being ≥ 80.
-/
theorem C1_counterexample :
    (calculate_suitability_score expOne regionC1 "wheat").map
        (fun r => (r.suitability_score, r.interpretation)) =
      some (80, "Хорошая пригодность") ∧
    weightedPercent expOne regionC1 wheatParams = 7996/100 ∧
    "Хорошая пригодность" ≠ "Высокая пригодность" := by
  refine ⟨?_, ?_, by decide⟩
  · norm_num [calculate_suitability_score, suitabilityScores, lookupCrop,
      CROP_PARAMETERS, List.find?, wheatParams, regionC1, round1, pyRound,
      min_def, max_def]
  · norm_num [weightedPercent, suitabilityScores, regionC1, wheatParams,
      min_def, max_def]

/--
C1 (amended: the interpretation band is determined by the unrounded weighted
percentage, not by the rounded score): for every catalog crop and every
region mapping, the returned score is the weighted sum of the seven
criterion scores (weights 0.20, 0.20, 0.15, 0.15, 0.10, 0.10, 0.10, summing
to 1), times 100, rounded to one decimal; the band is "high" when the
unrounded percentage is ≥ 80, "good" when ≥ 60, "moderate" when ≥ 40, else
"low".
-/
theorem C1_suitability (exp : ℚ → ℚ) (rd : RegionData) (name : String)
    (cp : CropParams) (h : lookupCrop name = some cp) :
    (calculate_suitability_score exp rd name).map (fun r => r.suitability_score) =
      some (round1 (weightedPercent exp rd cp)) ∧
    (calculate_suitability_score exp rd name).map (fun r => r.interpretation) =
      some (if 80 ≤ weightedPercent exp rd cp then "Высокая пригодность"
        else if 60 ≤ weightedPercent exp rd cp then "Хорошая пригодность"
        else if 40 ≤ weightedPercent exp rd cp then "Умеренная пригодность"
        else "Низкая пригодность") ∧
    (0.20 + 0.20 + 0.15 + 0.15 + 0.10 + 0.10 + 0.10 : ℚ) = 1 := by
  have harg :
      ((suitabilityScores exp rd cp).temperature * 0.20
        + (suitabilityScores exp rd cp).precipitation * 0.20
        + (suitabilityScores exp rd cp).soil * 0.15
        + (suitabilityScores exp rd cp).gdd * 0.15
        + (suitabilityScores exp rd cp).moisture * 0.10
        + (suitabilityScores exp rd cp).radiation * 0.10
        + (suitabilityScores exp rd cp).frost * 0.10) * 100
      = weightedPercent exp rd cp := by
    unfold weightedPercent; ring
  refine ⟨?_, ?_, by norm_num⟩
  · simp only [calculate_suitability_score, h, Option.map_some']
    rw [harg]
  · simp only [calculate_suitability_score, h, Option.map_some']
    rw [harg]

/-- Witness for C1 on wheat and the all-absent region. -/
theorem C1_suitability_witness :
    lookupCrop "wheat" = some wheatParams ∧
    ((calculate_suitability_score expOne emptyRegion "wheat").map
        (fun r => r.suitability_score) =
      some (round1 (weightedPercent expOne emptyRegion wheatParams)) ∧
    (calculate_suitability_score expOne emptyRegion "wheat").map
        (fun r => r.interpretation) =
      some (if 80 ≤ weightedPercent expOne emptyRegion wheatParams then "Высокая пригодность"
        else if 60 ≤ weightedPercent expOne emptyRegion wheatParams then "Хорошая пригодность"
        else if 40 ≤ weightedPercent expOne emptyRegion wheatParams then "Умеренная пригодность"
        else "Низкая пригодность") ∧
    (0.20 + 0.20 + 0.15 + 0.15 + 0.10 + 0.10 + 0.10 : ℚ) = 1) :=
  ⟨by norm_num [lookupCrop, CROP_PARAMETERS, List.find?],
   C1_suitability expOne emptyRegion "wheat" wheatParams
     (by norm_num [lookupCrop, CROP_PARAMETERS, List.find?])⟩

theorem totalOfCosts_pos_of_mem :
    ∀ pr ∈ REGIONAL_COSTS, 0 < totalOfCosts pr.2 := by
  intro pr hpr
  fin_cases hpr <;>
    norm_num [totalOfCosts, wheatCosts, cornCosts, sunflowerCosts, soybeanCosts,
      barleyCosts, rapeseedCosts, potatoCosts, sugarBeetCosts]

theorem price_pos_of_mem : ∀ pr ∈ MARKET_PRICES, 0 < pr.2 := by
  intro pr hpr
  fin_cases hpr <;> norm_num

theorem lookupCosts_total_pos {name : String} {c : CropCosts}
    (h : lookupCosts name = some c) : 0 < totalOfCosts c := by
  rw [lookupCosts, Option.map_eq_some'] at h
  obtain ⟨pr, hfind, rfl⟩ := h
  exact totalOfCosts_pos_of_mem pr (List.mem_of_find?_eq_some hfind)

theorem lookupPrice_pos {name : String} {p : ℚ}
    (h : lookupPrice name = some p) : 0 < p := by
  rw [lookupPrice, Option.map_eq_some'] at h
  obtain ⟨pr, hfind, rfl⟩ := h
  exact price_pos_of_mem pr (List.mem_of_find?_eq_some hfind)

/--
C8 counterexample: for wheat at a yield forecast of 0.01 c/ha the exact ROI
is `−99.94 %` but the returned `roi_percent` is the rounded `−99.9`, so the
returned value does not equal `profit / total_cost × 100` as claimed.
-/
theorem C8_counterexample :
    (calculate_profitability "wheat" (1/100)).map (fun r => r.roi_percent) =
      some (-999/10) ∧
    ((1:ℚ)/100 / 10 * 15000 - 25000) / 25000 * 100 = -4997/50 ∧
    ((-999/10 : ℚ) ≠ -4997/50) := by
  refine ⟨?_, by norm_num, by norm_num⟩
  norm_num [calculate_profitability, lookupCosts, lookupPrice, REGIONAL_COSTS,
    MARKET_PRICES, List.find?, wheatCosts, totalOfCosts, round0, round1, round2,
    pyRound]

/--
C8 (amended: the ROI, profitability and break-even fields are rounded to one
decimal, money to whole units, tons to two decimals): for every crop in both
tables and every yield forecast, total cost is the sum of the seven
categories, revenue is `(yield/10) × price`, profit is their difference,
`ROI% = profit/total×100` (0 when total ≤ 0), `profitability% =
profit/revenue×100` (0 when revenue ≤ 0), break-even yield is
`total/price × 10`; both divisors are positive on the actual tables, so no
division by zero occurs.
-/
theorem C8_profitability (name : String) (y : ℚ) (c : CropCosts) (p : ℚ)
    (hc : lookupCosts name = some c) (hp : lookupPrice name = some p) :
    calculate_profitability name y = some
      { costs_total := round0 (c.seeds + c.fertilizers + c.fuel + c.pesticides
          + c.machinery + c.labor + c.other)
        revenue := round0 (y / 10 * p)
        profit := round0 (y / 10 * p - totalOfCosts c)
        roi_percent := round1 (if 0 < totalOfCosts c then
          (y / 10 * p - totalOfCosts c) / totalOfCosts c * 100 else 0)
        profitability_percent := round1 (if 0 < y / 10 * p then
          (y / 10 * p - totalOfCosts c) / (y / 10 * p) * 100 else 0)
        breakeven_yield_cwt_per_ha := round1 (totalOfCosts c / p * 10)
        price_per_ton := p
        yield_tons_per_ha := round2 (y / 10) } ∧
    0 < totalOfCosts c ∧ 0 < p := by
  refine ⟨?_, lookupCosts_total_pos hc, lookupPrice_pos hp⟩
  simp only [calculate_profitability, hc, hp, totalOfCosts]

/-- Witness for C8: wheat at a 40 c/ha forecast. -/
theorem C8_profitability_witness :
    lookupCosts "wheat" = some wheatCosts ∧
    lookupPrice "wheat" = some 15000 ∧
    (calculate_profitability "wheat" 40 = some
      { costs_total := round0 (wheatCosts.seeds + wheatCosts.fertilizers
          + wheatCosts.fuel + wheatCosts.pesticides + wheatCosts.machinery
          + wheatCosts.labor + wheatCosts.other)
        revenue := round0 ((40 : ℚ) / 10 * 15000)
        profit := round0 ((40 : ℚ) / 10 * 15000 - totalOfCosts wheatCosts)
        roi_percent := round1 (if 0 < totalOfCosts wheatCosts then
          ((40 : ℚ) / 10 * 15000 - totalOfCosts wheatCosts) / totalOfCosts wheatCosts * 100
          else 0)
        profitability_percent := round1 (if 0 < (40 : ℚ) / 10 * 15000 then
          ((40 : ℚ) / 10 * 15000 - totalOfCosts wheatCosts) / ((40 : ℚ) / 10 * 15000) * 100
          else 0)
        breakeven_yield_cwt_per_ha := round1 (totalOfCosts wheatCosts / 15000 * 10)
        price_per_ton := 15000
        yield_tons_per_ha := round2 ((40 : ℚ) / 10) } ∧
    0 < totalOfCosts wheatCosts ∧ 0 < (15000 : ℚ)) :=
  ⟨by norm_num [lookupCosts, REGIONAL_COSTS, List.find?],
   by norm_num [lookupPrice, MARKET_PRICES, List.find?],
   C8_profitability "wheat" 40 wheatCosts 15000
     (by norm_num [lookupCosts, REGIONAL_COSTS, List.find?])
     (by norm_num [lookupPrice, MARKET_PRICES, List.find?])⟩

theorem round1_droughtRisk (o : Option ℚ) :
    round1 (droughtRisk o) = droughtRisk o := by
  unfold droughtRisk
  rcases o with _ | v
  · norm_num [round1, pyRound]
  · dsimp only
    split_ifs <;> norm_num [round1, pyRound]

theorem round1_frostRisk (o : Option ℚ) (name : String) :
    round1 (frostRisk o name) = frostRisk o name := by
  unfold frostRisk
  rcases o with _ | T
  · norm_num [round1, pyRound]
  · rcases hcp : lookupCrop name with _ | cp <;> simp only
    · norm_num [round1, pyRound]
    · split_ifs <;> norm_num [round1, pyRound]

theorem round1_excessMoistureRisk (o : Option ℚ) :
    round1 (excessMoistureRisk o) = excessMoistureRisk o := by
  unfold excessMoistureRisk
  rcases o with _ | g
  · norm_num [round1, pyRound]
  · dsimp only
    split_ifs <;> norm_num [round1, pyRound]

theorem round1_heatDeficitRisk (o : Option ℚ) (name : String) :
    round1 (heatDeficitRisk o name) = heatDeficitRisk o name := by
  unfold heatDeficitRisk
  rcases o with _ | g
  · norm_num [round1, pyRound]
  · rcases hr : lookupGddReq name with _ | req <;> simp only
    · norm_num [round1, pyRound]
    · split_ifs <;> norm_num [round1, pyRound]

/--
C9 counterexample: for wheat with SPI 0, winter minimum 0 °C, GTK 1 and GDD
2000 the hazard scores are 10/5/10/5, whose weighted sum is 7.75, but the
returned total risk is the rounded 7.8 — the returned total does not equal
the weighted sum as claimed.
-/
theorem C9_counterexample :
    (assess_climate_risks (some 0) ⟨some 0, some 1, some 2000⟩ "wheat").total_risk
      = 39/5 ∧
    ((10 : ℚ) * 0.35 + 5 * 0.25 + 10 * 0.20 + 5 * 0.20 = 31/4) ∧
    ((39/5 : ℚ) ≠ 31/4) := by
  refine ⟨?_, by norm_num, by norm_num⟩
  norm_num [assess_climate_risks, droughtRisk, frostRisk, excessMoistureRisk,
    heatDeficitRisk, lookupCrop, lookupGddReq, CROP_PARAMETERS,
    CROP_GDD_REQUIREMENTS, List.find?, wheatParams, round1, pyRound]

/--
C9 (amended: the returned total risk is the weighted sum rounded to one
decimal): for every catalog crop and all climate/indices inputs, the four
hazard scores follow the fixed tiers (drought from SPI with default 20,
frost from the winter minimum against the crop tolerance with default 15,
excess moisture from GTK with default 15, heat deficit from the GDD ratio
with default 25), the total is `round(drought×0.35 + frost×0.25 +
excess×0.20 + heat×0.20, 1)`, and the interpretation band is taken on the
unrounded total (< 20 low, < 40 moderate, < 60 elevated, else high).
-/
theorem C9_risks (tmin : Option ℚ) (ind : IndicesSummary) (name : String)
    (cp : CropParams) (req : GddReq)
    (h1 : lookupCrop name = some cp) (h2 : lookupGddReq name = some req) :
    (assess_climate_risks tmin ind name).drought =
      (match ind.spi_latest with
       | some spi =>
         if spi < -2 then 90 else if spi < -1.5 then 60
         else if spi < -1 then 30 else (10:ℚ)
       | none => 20) ∧
    (assess_climate_risks tmin ind name).frost =
      (match tmin with
       | some T =>
         if T < cp.frost_tolerance - 5 then 80 else if T < cp.frost_tolerance then 50
         else if T < cp.frost_tolerance + 2 then 20 else (5:ℚ)
       | none => 15) ∧
    (assess_climate_risks tmin ind name).excess_moisture =
      (match ind.gtk with
       | some g => if 2 < g then 70 else if 1.6 < g then 40 else (10:ℚ)
       | none => 15) ∧
    (assess_climate_risks tmin ind name).heat_deficit =
      (match ind.gdd_total with
       | some g =>
         if g / req.total < 0.75 then 80 else if g / req.total < 0.9 then 50
         else if g / req.total < 1 then 20 else (5:ℚ)
       | none => 25) ∧
    (assess_climate_risks tmin ind name).total_risk =
      round1 (droughtRisk ind.spi_latest * 0.35 + frostRisk tmin name * 0.25
        + excessMoistureRisk ind.gtk * 0.20 + heatDeficitRisk ind.gdd_total name * 0.20) ∧
    (assess_climate_risks tmin ind name).interpretation =
      (if droughtRisk ind.spi_latest * 0.35 + frostRisk tmin name * 0.25
          + excessMoistureRisk ind.gtk * 0.20
          + heatDeficitRisk ind.gdd_total name * 0.20 < 20 then "Низкий риск"
       else if droughtRisk ind.spi_latest * 0.35 + frostRisk tmin name * 0.25
          + excessMoistureRisk ind.gtk * 0.20
          + heatDeficitRisk ind.gdd_total name * 0.20 < 40 then "Умеренный риск"
       else if droughtRisk ind.spi_latest * 0.35 + frostRisk tmin name * 0.25
          + excessMoistureRisk ind.gtk * 0.20
          + heatDeficitRisk ind.gdd_total name * 0.20 < 60 then "Повышенный риск"
       else "Высокий риск") := by
  refine ⟨?_, ?_, ?_, ?_, rfl, rfl⟩
  · show round1 (droughtRisk ind.spi_latest) = _
    rw [round1_droughtRisk]
    rfl
  · show round1 (frostRisk tmin name) = _
    rw [round1_frostRisk]
    unfold frostRisk
    rcases tmin with _ | T
    · rfl
    · rw [h1]
  · show round1 (excessMoistureRisk ind.gtk) = _
    rw [round1_excessMoistureRisk]
    rfl
  · show round1 (heatDeficitRisk ind.gdd_total name) = _
    rw [round1_heatDeficitRisk]
    unfold heatDeficitRisk
    rcases ind.gdd_total with _ | g
    · rfl
    · rw [h2]

/-- Witness for C9: wheat under concrete benign conditions. -/
theorem C9_risks_witness :
    lookupCrop "wheat" = some wheatParams ∧
    lookupGddReq "wheat" = some ⟨5, 30, 1800, "Пшеница"⟩ ∧
    (assess_climate_risks (some 0) ⟨some 0, some 1, some 2000⟩ "wheat").drought =
      (match some (0:ℚ) with
       | some spi =>
         if spi < -2 then 90 else if spi < -1.5 then 60
         else if spi < -1 then 30 else (10:ℚ)
       | none => 20) :=
  ⟨by norm_num [lookupCrop, CROP_PARAMETERS, List.find?],
   by norm_num [lookupGddReq, CROP_GDD_REQUIREMENTS, List.find?],
   (C9_risks (some 0) ⟨some 0, some 1, some 2000⟩ "wheat" wheatParams
     ⟨5, 30, 1800, "Пшеница"⟩
     (by norm_num [lookupCrop, CROP_PARAMETERS, List.find?])
     (by norm_num [lookupGddReq, CROP_GDD_REQUIREMENTS, List.find?])).1⟩

theorem rollingSum_nonneg {xs : List ℚ} (hnn : ∀ x ∈ xs, 0 ≤ x) {w : ℕ} :
    ∀ y ∈ rollingSum w xs, 0 ≤ y := by
  intro y hy
  simp only [rollingSum, List.mem_map, List.mem_range] at hy
  obtain ⟨i, -, rfl⟩ := hy
  apply List.sum_nonneg
  intro z hz
  exact hnn z (List.mem_of_mem_drop (List.mem_of_mem_take hz))

theorem rollingSum_filter_ne_eq_filter_pos {xs : List ℚ} (hnn : ∀ x ∈ xs, 0 ≤ x)
    {w : ℕ} :
    (rollingSum w xs).filter (fun x => x ≠ 0) =
      (rollingSum w xs).filter (fun x => 0 < x) := by
  apply List.filter_congr
  intro y hy
  have h0 := rollingSum_nonneg hnn y hy
  by_cases h : y = 0
  · simp [h]
  · simp [h, lt_of_le_of_ne h0 (Ne.symm h)]

/--
C6: the SPI pipeline returns an insufficient-data result (no SPI values, no
exception) whenever the precipitation series has fewer than 12 periods, or
the 3-period rolling sums have fewer than 10 non-zero values; SPI values are
produced only when both conditions hold — for every model of the SciPy
fitting step.
-/
theorem C6_spi (fitSpi : List ℚ → Option (List ℚ)) (series : List ℚ)
    (hnn : ∀ x ∈ series, 0 ≤ x) :
    (series.length < 12 →
      spiFromClimate fitSpi (some series) =
        some { spi_values := none, latest_spi := none
               interpretation := "Недостаточно данных (нужен год+)" }) ∧
    (12 ≤ series.length →
      ((rollingSum 3 series).filter (fun x => x ≠ 0)).length < 10 →
      spiFromClimate fitSpi (some series) =
        some { spi_values := none, latest_spi := none
               interpretation := "Недостаточно данных для расчета SPI" }) ∧
    (∀ r vals, spiFromClimate fitSpi (some series) = some r →
      r.spi_values = some vals →
      12 ≤ series.length ∧
      10 ≤ ((rollingSum 3 series).filter (fun x => x ≠ 0)).length) := by
  have hfeq := rollingSum_filter_ne_eq_filter_pos hnn (w := 3)
  refine ⟨?_, ?_, ?_⟩
  · intro h
    rw [spiFromClimate, if_neg (by omega)]
  · intro h12 h10
    rw [hfeq] at h10
    rw [spiFromClimate, if_pos h12, calculate_spi]
    simp only [show (1:ℕ) < 3 by norm_num, if_true]
    rw [if_pos h10]
  · intro r vals hr hvals
    by_cases h12 : 12 ≤ series.length
    · refine ⟨h12, ?_⟩
      by_contra h10
      push_neg at h10
      rw [hfeq] at h10
      rw [spiFromClimate, if_pos h12, calculate_spi] at hr
      simp only [show (1:ℕ) < 3 by norm_num, if_true] at hr
      rw [if_pos h10] at hr
      obtain rfl : r = _ := Option.some.inj hr.symm
      simp at hvals
    · exfalso
      rw [spiFromClimate, if_neg h12] at hr
      obtain rfl : r = _ := Option.some.inj hr.symm
      simp at hvals

/-- Witness for C6: twelve zero-precipitation periods (all rolling sums
zero, so fewer than 10 non-zero values) with an always-failing fit model. -/
theorem C6_spi_witness :
    (12 ≤ (List.replicate 12 (0:ℚ)).length) ∧
    (((rollingSum 3 (List.replicate 12 (0:ℚ))).filter (fun x => x ≠ 0)).length < 10) ∧
    spiFromClimate (fun _ => none) (some (List.replicate 12 (0:ℚ))) =
      some { spi_values := none, latest_spi := none
             interpretation := "Недостаточно данных для расчета SPI" } :=
  ⟨by norm_num,
   by norm_num [rollingSum, List.replicate, List.range, List.range.loop, List.filter],
   (C6_spi (fun _ => none) (List.replicate 12 0)
       (by intro x hx; rw [List.eq_of_mem_replicate hx])).2.1
     (by norm_num)
     (by norm_num [rollingSum, List.replicate, List.range, List.range.loop, List.filter])⟩

theorem filterMap_length_of_isSome {α β : Type} (f : α → Option β) :
    ∀ l : List α, (∀ x ∈ l, (f x).isSome) → (l.filterMap f).length = l.length
  | [], _ => rfl
  | x :: xs, h => by
    have hx := h x (List.mem_cons_self x xs)
    obtain ⟨y, hy⟩ := Option.isSome_iff_exists.mp hx
    rw [List.filterMap_cons, hy]
    simp only [List.length_cons]
    rw [filterMap_length_of_isSome f xs (fun z hz => h z (List.mem_cons_of_mem x hz))]

theorem rankLe_trans : ∀ a b c : SuitabilityResult,
    rankLe a b = true → rankLe b c = true → rankLe a c = true := by
  intro a b c hab hbc
  simp only [rankLe, decide_eq_true_eq] at hab hbc ⊢
  exact le_trans hbc hab

theorem rankLe_total : ∀ a b : SuitabilityResult,
    (rankLe a b || rankLe b a) = true := by
  intro a b
  simp only [rankLe, Bool.or_eq_true, decide_eq_true_eq]
  exact (le_total a.suitability_score b.suitability_score).symm

theorem catalog_scores_isSome (exp : ℚ → ℚ) (rd : RegionData) :
    ∀ p ∈ CROP_PARAMETERS, (calculate_suitability_score exp rd p.1).isSome := by
  intro p hp
  fin_cases hp <;>
    simp [calculate_suitability_score, lookupCrop, CROP_PARAMETERS, List.find?]

/--
C10: unknown crop identifiers yield no result (no exception) and are omitted
from the ranking; `rank_crops` scores every catalog crop, orders by
descending suitability with ties kept in catalog iteration order (a stable
sort), and `get_top_n_crops` is exactly the first `n` entries.
-/
theorem C10_ranking (exp : ℚ → ℚ) (rd : RegionData) (n : ℕ) :
    (∀ name, lookupCrop name = none →
      calculate_suitability_score exp rd name = none) ∧
    (rank_crops exp rd).Perm
      (CROP_PARAMETERS.filterMap (fun p => calculate_suitability_score exp rd p.1)) ∧
    (rank_crops exp rd).length = CROP_PARAMETERS.length ∧
    (rank_crops exp rd).Pairwise
      (fun a b => b.suitability_score ≤ a.suitability_score) ∧
    (∀ s : ℚ, (rank_crops exp rd).filter (fun r => r.suitability_score = s)
        = (CROP_PARAMETERS.filterMap
            (fun p => calculate_suitability_score exp rd p.1)).filter
              (fun r => r.suitability_score = s)) ∧
    get_top_n_crops exp rd n = (rank_crops exp rd).take n := by
  refine ⟨?_, ?_, ?_, ?_, ?_, rfl⟩
  · intro name h
    simp [calculate_suitability_score, h]
  · exact List.mergeSort_perm _ rankLe
  · rw [rank_crops, (List.mergeSort_perm _ rankLe).length_eq]
    exact filterMap_length_of_isSome _ _ (catalog_scores_isSome exp rd)
  · have := List.sorted_mergeSort rankLe_trans rankLe_total
      (CROP_PARAMETERS.filterMap (fun p => calculate_suitability_score exp rd p.1))
    exact this.imp (fun h => by simpa [rankLe, decide_eq_true_eq] using h)
  · intro s
    set evals := CROP_PARAMETERS.filterMap
      (fun p => calculate_suitability_score exp rd p.1) with hevals
    set p := fun r : SuitabilityResult => decide (r.suitability_score = s) with hp
    have hpair : (evals.filter p).Pairwise (fun a b => rankLe a b = true) := by
      apply List.pairwise_of_forall_mem_list
      intro a ha b hb
      have ha' : a.suitability_score = s := by
        have := List.of_mem_filter ha
        simpa [hp] using this
      have hb' : b.suitability_score = s := by
        have := List.of_mem_filter hb
        simpa [hp] using this
      simp [rankLe, ha', hb']
    have hsub : (evals.filter p).Sublist (evals.mergeSort rankLe) :=
      List.sublist_mergeSort rankLe_trans rankLe_total hpair (List.filter_sublist _)
    have hsub2 : ((evals.filter p).filter p).Sublist
        ((evals.mergeSort rankLe).filter p) := hsub.filter p
    have hidem : (evals.filter p).filter p = evals.filter p := by
      rw [List.filter_filter]
      apply List.filter_congr
      intro x hx
      exact Bool.and_self _
    rw [hidem] at hsub2
    have hlen : ((evals.mergeSort rankLe).filter p).length = (evals.filter p).length :=
      ((List.mergeSort_perm evals rankLe).filter p).length_eq
    have := hsub2.eq_of_length hlen.symm
    exact this.symm

/-- Witness for C10: the unknown identifier `"rice"` is rejected, and the
top-3 selection is the 3-prefix of the ranking. -/
theorem C10_ranking_witness :
    lookupCrop "rice" = none ∧
    calculate_suitability_score expOne emptyRegion "rice" = none ∧
    get_top_n_crops expOne emptyRegion 3 = (rank_crops expOne emptyRegion).take 3 :=
  ⟨rfl, (C10_ranking expOne emptyRegion 3).1 "rice" rfl,
   (C10_ranking expOne emptyRegion 3).2.2.2.2.2⟩
